import Mathlib

/-!
Verification development for `graphicsItems/ScatterPlotItem.py`.

The Python classes `ScatterPlotItem`, `SpotPixmap` and `SpotItem` are shallowly
embedded below.  Coordinates and sizes are modelled as rationals, pens and
brushes as plain RGB triples (the external helpers `fn.mkPen` / `fn.mkBrush`
act as the identity on already-built values), and Python exceptions as an
explicit error type threaded through `Except`.  Stateful methods become
functions from an explicit `Scatter` state; methods that can raise return the
state at the moment of the raise, so partial mutation is observable.
-/

namespace ScatterSim

attribute [local semireducible] Rat.add Rat.sub Rat.mul Rat.inv

/-- RGB pen value; the external `fn.mkPen` is modelled as the identity on
already-built pens. -/
structure Pen where
  r : ℚ
  g : ℚ
  b : ℚ
deriving DecidableEq

/-- RGB brush value; the external `fn.mkBrush` is modelled as the identity on
already-built brushes. -/
structure Brush where
  r : ℚ
  g : ℚ
  b : ℚ
deriving DecidableEq

/-- Opaque per-point metadata payload (the `data` column). -/
abbrev MetaVal := ℚ

/-- Python exceptions raised by the embedded code, by kind. -/
inductive Err where
  /-- `Exception("Must set data before setting multiple ...")` -/
  | mustSetData
  /-- `Exception("Number of ... does not match number of points (%d != %d)")` -/
  | lengthMismatch (got expected : ℕ)
  /-- `Exception("Value for parameter 'frac' must be > 0.")` -/
  | invalidFrac
  /-- `Exception("Unknown spot symbol ...")` raised by `SpotPixmap._setPath` -/
  | unknownSymbol
  /-- Python `IndexError` from `['o','s','t','d','+'][symbol]` out of range -/
  | listIndexErr
  /-- Python `IndexError` from indexing the numpy `pointData` array out of range -/
  | npIndexErr
  /-- Python `TypeError` from subscripting `self.data` when it is `None` -/
  | noneTypeErr
deriving DecidableEq

instance {ε α : Type} [DecidableEq ε] [DecidableEq α] : DecidableEq (Except ε α) := fun a b => by
  cases a <;> cases b
  case error.error x y =>
    exact if h : x = y then .isTrue (by rw [h]) else .isFalse (fun hc => h (by cases hc; rfl))
  case error.ok x y => exact .isFalse (fun hc => by cases hc)
  case ok.error x y => exact .isFalse (fun hc => by cases hc)
  case ok.ok x y =>
    exact if h : x = y then .isTrue (by rw [h]) else .isFalse (fun hc => h (by cases hc; rfl))

/-- Symbol argument as accepted by `SpotPixmap._setSymbol`: an integer code, a
character code, or Python `None`. -/
inductive SymbolArg where
  | intSym (i : ℤ)
  | chSym (c : Char)
  | noSym
deriving DecidableEq

/-- Models `try: symbol = int(symbol) except: pass` — a digit character converts
to the corresponding integer, everything else is left unchanged. -/
def tryIntCast : SymbolArg → SymbolArg
  | .chSym c => if c.isDigit then .intSym ((c.toNat : ℤ) - 48) else .chSym c
  | a => a

/-- The positional symbol table `['o', 's', 't', 'd', '+']` of `_setSymbol`. -/
def symbolTable : List Char := ['o', 's', 't', 'd', '+']

/-- Embeds the symbol-resolution part of `SpotPixmap._setSymbol`: `None`
defaults to `'o'`; integers index the table with Python list-indexing
semantics (negative indices count from the end, out-of-range raises
`IndexError`); any other value passes through to `_setPath`. -/
def resolveSymbol (a : SymbolArg) : Except Err Char :=
  match tryIntCast a with
  | .noSym => .ok 'o'
  | .intSym i =>
      if 0 ≤ i ∧ i < 5 then .ok (symbolTable.getD i.toNat 'o')
      else if -5 ≤ i ∧ i < 0 then .ok (symbolTable.getD (5 + i).toNat 'o')
      else .error .listIndexErr
  | .chSym c => .ok c

/-- Elements of a `QPainterPath` as built by `SpotPixmap._setPath`. -/
inductive PathElem where
  | ellipse (x y w h : ℚ)
  | rect (x y w h : ℚ)
  | moveTo (x y : ℚ)
  | lineTo (x y : ℚ)
  | closeSub
deriving DecidableEq

/-- Embeds `SpotPixmap._setPath`: the path geometry for each recognised symbol
character, or the unknown-symbol error. -/
def setPath (c : Char) : Except Err (List PathElem) :=
  if c = 'o' then .ok [.ellipse (-(1/2)) (-(1/2)) 1 1]
  else if c = 's' then .ok [.rect (-(1/2)) (-(1/2)) 1 1]
  else if c = 't' ∨ c = '^' then
    .ok [.moveTo (-(1/2)) (-(1/2)), .lineTo 0 (1/2), .lineTo (1/2) (-(1/2)), .closeSub]
  else if c = 'd' then
    .ok [.moveTo 0 (-(1/2)), .lineTo (-(2/5)) 0, .lineTo 0 (1/2), .lineTo (2/5) 0, .closeSub]
  else if c = '+' then
    .ok [.moveTo (-(1/2)) (-(1/100)), .lineTo (-(1/2)) (1/100), .lineTo (-(1/100)) (1/100),
         .lineTo (-(1/100)) (1/2), .lineTo (1/100) (1/2), .lineTo (1/100) (1/100),
         .lineTo (1/2) (1/100), .lineTo (1/2) (-(1/100)), .lineTo (1/100) (-(1/100)),
         .lineTo (1/100) (-(1/2)), .lineTo (-(1/100)) (-(1/2)), .lineTo (-(1/100)) (-(1/100)),
         .closeSub]
  else .error .unknownSymbol

/-- Combined symbol-to-path construction used when a `SpotPixmap` is built:
`_setSymbol` followed by `_setPath`. -/
def buildPath (a : SymbolArg) : Except Err (List PathElem) :=
  match resolveSymbol a with
  | .error e => .error e
  | .ok c => setPath c

/-- State of a `SpotPixmap` object.  `pmId` is a creation counter standing in
for Python object identity (two caches are "the same object" iff their ids
are equal).  `pixmapSide` models `_setPixmap`: in pixel mode the rasterized
bitmap is `size+2` pixels square, otherwise no bitmap exists. -/
structure SpotPixmapData where
  pmId : ℕ
  pxMode : Bool
  size : ℚ
  pen : Pen
  brush : Brush
  symbol : Char
  path : List PathElem
  pixmapSide : Option ℚ
deriving DecidableEq

/-- Embeds the `SpotPixmap.__init__` constructor (which can raise from
`_setSymbol`/`_setPath`); `pmId` is the fresh identity supplied by the
caller's counter. -/
def mkSpotPixmap (pmId : ℕ) (pxMode : Bool) (size : ℚ) (pen : Pen) (brush : Brush)
    (sym : SymbolArg) : Except Err SpotPixmapData :=
  match resolveSymbol sym with
  | .error e => .error e
  | .ok c =>
    match setPath c with
    | .error e => .error e
    | .ok p => .ok ⟨pmId, pxMode, size, pen, brush, c, p, if pxMode then some (size + 2) else none⟩

/-- State of a `SpotItem`: scene position, the (possibly shared) glyph cache,
the metadata payload, the creation index, and the scene-graph z-value
(defaulted to 0 by the external base class, never set by this code). -/
structure SpotItem where
  posX : ℚ
  posY : ℚ
  pixmap : SpotPixmapData
  sdata : Option MetaVal
  index : ℕ
  z : ℚ
deriving DecidableEq

/-- One row of the `self.data` record array.  `size = -1` and `symbol = none`
are the "use collection default" sentinels (`-1` / `''` in the source);
`pen`/`brush` use `none` for the `None` sentinel.  `spotIdx` models the
`'spot'` back-reference column (as an index into `spots`). -/
structure PointRec where
  x : ℚ
  y : ℚ
  size : ℚ
  symbol : Option SymbolArg
  pen : Option Pen
  brush : Option Brush
  spotIdx : Option ℕ
deriving DecidableEq

instance : Inhabited PointRec := ⟨⟨0, 0, 0, none, none, none, none⟩⟩

/-- The `self.opts` dictionary after `__init__` has populated every key. -/
structure Opts where
  pen : Pen
  brush : Brush
  symbol : SymbolArg
  size : ℚ
  pxMode : Bool
  identical : Bool
deriving DecidableEq

/-- Qt signals emitted by the embedded methods. -/
inductive Emission where
  | plotChanged
  | clicked (pts : List SpotItem)
deriving DecidableEq

/-- Full mutable state of a `ScatterPlotItem`. -/
structure Scatter where
  data : Option (List PointRec)
  pointData : List (Option MetaVal)
  spots : List SpotItem
  bounds0 : Option (ℚ × ℚ)
  bounds1 : Option (ℚ × ℚ)
  opts : Opts
  spotsValid : Bool
  spotPixmapCache : Option SpotPixmapData
  nextId : ℕ
  ptsClicked : List SpotItem
deriving DecidableEq

/-- Result of a stateful, possibly-raising method call: the returned value or
the exception, the state at return (or at the moment of the raise), and the
signals emitted before returning. -/
structure Res (α : Type) where
  val : Except Err α
  state : Scatter
  emits : List Emission

/-- `self.bounds[ax]` for `ax : Fin 2`. -/
def Scatter.boundsAx (s : Scatter) (ax : Fin 2) : Option (ℚ × ℚ) :=
  if ax = 0 then s.bounds0 else s.bounds1

/-- `self.bounds[ax] = b`. -/
def Scatter.setBoundsAx (s : Scatter) (ax : Fin 2) (b : ℚ × ℚ) : Scatter :=
  if ax = 0 then { s with bounds0 := some b } else { s with bounds1 := some b }

/-- Embeds `ScatterPlotItem.updateSpots` (the `self.update()` repaint request is
external). -/
def updateSpots (s : Scatter) : Scatter :=
  { s with spotsValid := false }

/-- Embeds `ScatterPlotItem.clear` (scene-graph detachment of the spot items is
external). -/
def clearData (s : Scatter) : Scatter :=
  { s with spots := [], data := none, spotsValid := false, bounds0 := none, bounds1 := none }

/-- Embeds the single-value branch of `ScatterPlotItem.setPen`. -/
def setPenScalar (s : Scatter) (p : Pen) : Scatter :=
  updateSpots { s with opts := { s.opts with pen := p } }

/-- Embeds the per-point sequence branch of `ScatterPlotItem.setPen`: check data
presence, then length, then overwrite each point's pen. -/
def setPenSeq (s : Scatter) (ps : List Pen) : (Option Err) × Scatter :=
  match s.data with
  | none => (some .mustSetData, s)
  | some d =>
    if ps.length ≠ d.length then (some (.lengthMismatch ps.length d.length), s)
    else (none, updateSpots
      { s with data := some (List.zipWith (fun r p => { r with pen := some p }) d ps) })

/-- Embeds the single-value branch of `ScatterPlotItem.setBrush`. -/
def setBrushScalar (s : Scatter) (b : Brush) : Scatter :=
  updateSpots { s with opts := { s.opts with brush := b } }

/-- Embeds the per-point sequence branch of `ScatterPlotItem.setBrush`. -/
def setBrushSeq (s : Scatter) (bs : List Brush) : (Option Err) × Scatter :=
  match s.data with
  | none => (some .mustSetData, s)
  | some d =>
    if bs.length ≠ d.length then (some (.lengthMismatch bs.length d.length), s)
    else (none, updateSpots
      { s with data := some (List.zipWith (fun r b => { r with brush := some b }) d bs) })

/-- Embeds the single-value branch of `ScatterPlotItem.setSymbol`. -/
def setSymbolScalar (s : Scatter) (a : SymbolArg) : Scatter :=
  updateSpots { s with opts := { s.opts with symbol := a } }

/-- Embeds the per-point sequence branch of `ScatterPlotItem.setSymbol`
(`self.data['symbol'] = symbols` after the length check). -/
def setSymbolSeq (s : Scatter) (syms : List SymbolArg) : (Option Err) × Scatter :=
  match s.data with
  | none => (some .mustSetData, s)
  | some d =>
    if syms.length ≠ d.length then (some (.lengthMismatch syms.length d.length), s)
    else (none, updateSpots
      { s with data := some (List.zipWith (fun r a => { r with symbol := some a }) d syms) })

/-- Embeds the single-value branch of `ScatterPlotItem.setSize`. -/
def setSizeScalar (s : Scatter) (v : ℚ) : Scatter :=
  updateSpots { s with opts := { s.opts with size := v } }

/-- Embeds the per-point sequence branch of `ScatterPlotItem.setSize`
(`self.data['size'] = sizes` after the length check). -/
def setSizeSeq (s : Scatter) (vs : List ℚ) : (Option Err) × Scatter :=
  match s.data with
  | none => (some .mustSetData, s)
  | some d =>
    if vs.length ≠ d.length then (some (.lengthMismatch vs.length d.length), s)
    else (none, updateSpots
      { s with data := some (List.zipWith (fun r v => { r with size := v }) d vs) })

/-- Embeds the sequence branch of `ScatterPlotItem.setPointData`: check data
presence and length, then replace `self.pointData` wholesale. -/
def setPointDataSeq (s : Scatter) (ms : List (Option MetaVal)) : (Option Err) × Scatter :=
  match s.data with
  | none => (some .mustSetData, s)
  | some d =>
    if ms.length ≠ d.length then (some (.lengthMismatch ms.length d.length), s)
    else (none, updateSpots { s with pointData := ms })

/-- Embeds `ScatterPlotItem.setPxMode`. -/
def setPxModeFlag (s : Scatter) (b : Bool) : Scatter :=
  updateSpots { s with opts := { s.opts with pxMode := b } }

/-- Embeds `ScatterPlotItem.setIdentical`. -/
def setIdenticalFlag (s : Scatter) (b : Bool) : Scatter :=
  updateSpots { s with opts := { s.opts with identical := b } }

/-- Embeds the `pos` form of `ScatterPlotItem.setData` (a sequence of `(x,y)`
pairs, no extra keyword options): `clear`, rebuild `self.data` with sentinel
per-point attributes, reset `self.pointData`, then `updateSpots`. -/
def setDataPos (s : Scatter) (pos : List (ℚ × ℚ)) : Scatter :=
  let s := clearData s
  updateSpots
    { s with
      data := some (pos.map (fun p => ⟨p.1, p.2, -1, none, none, none, none⟩)),
      pointData := List.replicate pos.length none }

/-- Embeds `ScatterPlotItem.addPoints` for the `pos` form: snapshot the old
records, run `setData` (which clears everything, rebuilding `pointData` for
the new points only), then concatenate old records before new ones and emit
`sigPlotChanged`. -/
def addPointsPos (s : Scatter) (pos : List (ℚ × ℚ)) : Scatter × List Emission :=
  match s.data with
  | none => (setDataPos s pos, [])
  | some d1 =>
    let s2 := setDataPos s pos
    let newData := d1 ++ s2.data.getD []
    ({ s2 with data := some newData }, [.plotChanged])

/-- First index of the minimum of a list (the behaviour of `np.argmin`). -/
def argminIdx : List ℚ → ℕ
  | [] => 0
  | [_] => 0
  | a :: b :: rest =>
    if (b :: rest).getD (argminIdx (b :: rest)) 0 < a then argminIdx (b :: rest) + 1 else 0

/-- First index of the maximum of a list (the behaviour of `np.argmax`). -/
def argmaxIdx : List ℚ → ℕ
  | [] => 0
  | [_] => 0
  | a :: b :: rest =>
    if a < (b :: rest).getD (argmaxIdx (b :: rest)) 0 then argmaxIdx (b :: rest) + 1 else 0

/-- Minimum value of a non-empty list (0 on the empty list). -/
def listMin : List ℚ → ℚ
  | [] => 0
  | [a] => a
  | a :: b :: rest => min a (listMin (b :: rest))

/-- Maximum value of a non-empty list (0 on the empty list). -/
def listMax : List ℚ → ℚ
  | [] => 0
  | [a] => a
  | a :: b :: rest => max a (listMax (b :: rest))

/-- Models the external `scipy.stats.scoreatpercentile` from its documentation:
fractional index interpolation over the sorted values. -/
def scoreatpercentile (l : List ℚ) (per : ℚ) : ℚ :=
  let sorted := l.insertionSort (· ≤ ·)
  let n := sorted.length
  if n = 0 then 0
  else
    let pos : ℚ := per / 100 * ((n : ℚ) - 1)
    let i : ℕ := pos.floor.toNat
    let frac : ℚ := pos - pos.floor
    let a := sorted.getD i 0
    let b := sorted.getD (min (i + 1) (n - 1)) 0
    a + frac * (b - a)

/-- The x column (`ax = 0`) or y column (`ax = 1`) of the record array. -/
def axisCol (d : List PointRec) (ax : Fin 2) : List ℚ :=
  if ax = 0 then d.map (·.x) else d.map (·.y)

/-- Embeds `ScatterPlotItem.dataBounds`: return the cached pair when
`frac >= 1` and a cache entry exists; `(None, None)` for an absent or empty
dataset; for `frac >= 1` compute the extrema via `argmin`/`argmax`, subtract /
add the raw per-point `size` field of the extreme records when not in pixel
mode, and cache the pair; raise for `frac <= 0`; otherwise take the
symmetric percentile range. -/
def dataBounds (s : Scatter) (ax : Fin 2) (frac : ℚ) : Res (Option (ℚ × ℚ)) :=
  if 1 ≤ frac ∧ (s.boundsAx ax).isSome then ⟨.ok (s.boundsAx ax), s, []⟩
  else
    match s.data with
    | none => ⟨.ok none, s, []⟩
    | some d =>
      if d.length = 0 then ⟨.ok none, s, []⟩
      else
        let col := axisCol d ax
        if 1 ≤ frac then
          let mi := argminIdx col
          let ma := argmaxIdx col
          let minVal0 := col.getD mi 0
          let maxVal0 := col.getD ma 0
          let minVal := if s.opts.pxMode then minVal0 else minVal0 - (d.getD mi default).size
          let maxVal := if s.opts.pxMode then maxVal0 else maxVal0 + (d.getD ma default).size
          ⟨.ok (some (minVal, maxVal)), s.setBoundsAx ax (minVal, maxVal), []⟩
        else if frac ≤ 0 then ⟨.error .invalidFrac, s, []⟩
        else ⟨.ok (some (scoreatpercentile col (50 - frac * 50),
                         scoreatpercentile col (50 + frac * 50))), s, []⟩

/-- Resolved per-point size: `size[size<0] = self.opts['size']`. -/
def resolvedSize (o : Opts) (r : PointRec) : ℚ :=
  if r.size < 0 then o.size else r.size

/-- Resolved per-point pen: `pen[pen<0] = self.opts['pen']` (the comparison
checks for the `None` sentinel). -/
def resolvedPen (o : Opts) (r : PointRec) : Pen :=
  r.pen.getD o.pen

/-- Resolved per-point brush: `brush[brush<0] = self.opts['brush']`. -/
def resolvedBrush (o : Opts) (r : PointRec) : Brush :=
  r.brush.getD o.brush

/-- Resolved per-point symbol: `symbol[symbol==''] = self.opts['symbol']`. -/
def resolvedSymbol (o : Opts) (r : PointRec) : SymbolArg :=
  r.symbol.getD o.symbol

/-- Embeds `ScatterPlotItem.spotPixmap`: `None` unless identical mode is on;
otherwise the cached `SpotPixmap`, created lazily from the collection
defaults (with a fresh identity) on first use. -/
def spotPixmapOf (s : Scatter) : Res (Option SpotPixmapData) :=
  if ¬ s.opts.identical then ⟨.ok none, s, []⟩
  else
    match s.spotPixmapCache with
    | some p => ⟨.ok (some p), s, []⟩
    | none =>
      match mkSpotPixmap s.nextId s.opts.pxMode s.opts.size s.opts.pen s.opts.brush
          s.opts.symbol with
      | .error e => ⟨.error e, s, []⟩
      | .ok p => ⟨.ok (some p), { s with spotPixmapCache := some p, nextId := s.nextId + 1 }, []⟩

/-- Embeds `ScatterPlotItem.mkSpot`: in pixel mode consult `spotPixmap` (the
shared identical-mode cache); when that yields `None`, build a private
`SpotPixmap` for this spot; then create the `SpotItem` (scene attachment and
positioning are external; the z-value defaults to 0). -/
def mkSpot (s : Scatter) (posX posY size : ℚ) (pxMode : Bool) (brush : Brush) (pen : Pen)
    (dataVal : Option MetaVal) (sym : SymbolArg) (index : ℕ) : Res SpotItem :=
  let r := if pxMode then spotPixmapOf s else ⟨.ok none, s, []⟩
  match r.val with
  | .error e => ⟨.error e, r.state, r.emits⟩
  | .ok sharedPm =>
    match sharedPm with
    | some pm => ⟨.ok ⟨posX, posY, pm, dataVal, index, 0⟩, r.state, r.emits⟩
    | none =>
      match mkSpotPixmap r.state.nextId pxMode size pen brush sym with
      | .error e => ⟨.error e, r.state, r.emits⟩
      | .ok pm =>
        ⟨.ok ⟨posX, posY, pm, dataVal, index, 0⟩,
         { r.state with nextId := r.state.nextId + 1 }, r.emits⟩

/-- Loop body of `ScatterPlotItem.generateSpots` over the snapshot of the
record array: look up `self.pointData[i]` (raising `IndexError` when the
index is out of range), build the spot via `mkSpot` with the resolved
attributes, append it to `self.spots` and store the back-reference in the
`'spot'` column.  On a raise, the state reached so far is returned. -/
def genLoop : Scatter → List PointRec → ℕ → (Option Err) × Scatter
  | s, [], _ => (none, s)
  | s, r :: rest, i =>
    if h : i < s.pointData.length then
      let dataVal : Option MetaVal :=
        match s.pointData.get ⟨i, h⟩ with
        | none => none
        | some m => some m
      let res := mkSpot s r.x r.y (resolvedSize s.opts r) s.opts.pxMode
          (resolvedBrush s.opts r) (resolvedPen s.opts r) dataVal
          (resolvedSymbol s.opts r) s.spots.length
      match res.val with
      | .error e => (some e, res.state)
      | .ok item =>
        let st := res.state
        let st := { st with
          spots := st.spots ++ [item],
          data := some ((st.data.getD []).set i { r with spotIdx := some item.index }) }
        genLoop st rest (i + 1)
    else (some .npIndexErr, s)

/-- Embeds `ScatterPlotItem.generateSpots`: subscripting `self.data` raises a
`TypeError` when it is `None`; otherwise run the loop over a snapshot of the
records, mark the spots valid and emit `sigPlotChanged`. -/
def generateSpots (s : Scatter) : Res Unit :=
  match s.data with
  | none => ⟨.error .noneTypeErr, s, []⟩
  | some d =>
    match genLoop s d 0 with
    | (some e, s') => ⟨.error e, s', []⟩
    | (none, s') => ⟨.ok (), { s' with spotsValid := true }, [.plotChanged]⟩

/-- Embeds `ScatterPlotItem.points`: materialize if invalid, then return a
snapshot of `self.spots`. -/
def pointsOf (s : Scatter) : Res (List SpotItem) :=
  if s.spotsValid then ⟨.ok s.spots, s, []⟩
  else
    let r := generateSpots s
    match r.val with
    | .error e => ⟨.error e, r.state, r.emits⟩
    | .ok _ => ⟨.ok r.state.spots, r.state, r.emits⟩

/-- One half-extent of a spot's hit box in `pointsAt`: `s2 = size * 0.5`,
multiplied by the device pixel scale on that axis when in pixel mode (the
spot's `size` property reads `self.spotPixmap.size`). -/
def halfExt (pxMode : Bool) (scale : ℚ) (sp : SpotItem) : ℚ :=
  if pxMode then sp.pixmap.size * (1/2) * scale else sp.pixmap.size * (1/2)

/-- The hit test of `ScatterPlotItem.pointsAt` for one spot: strict
inequalities against the axis-aligned box of half-extents
`halfExt pw` / `halfExt ph` around the spot's position. -/
def inBoxB (px py pw ph : ℚ) (pxMode : Bool) (sp : SpotItem) : Bool :=
  decide (sp.posX - halfExt pxMode pw sp < px) &&
    decide (px < sp.posX + halfExt pxMode pw sp) &&
    decide (sp.posY - halfExt pxMode ph sp < py) &&
    decide (py < sp.posY + halfExt pxMode ph sp)

/-- The comparator of `pts.sort(lambda a,b: cmp(b.zValue(), a.zValue()))`:
descending z-value. -/
def zGE (a b : SpotItem) : Prop := b.z ≤ a.z

instance : DecidableRel zGE := fun a b => inferInstanceAs (Decidable (b.z ≤ a.z))

instance : IsTotal SpotItem zGE := ⟨fun a b => le_total b.z a.z⟩

instance : IsTrans SpotItem zGE := ⟨fun _ _ _ h1 h2 => le_trans h2 h1⟩

/-- Embeds `ScatterPlotItem.pointsAt`: materialize if invalid, collect every
spot whose box strictly contains the position (`pw`/`ph` are the external
`pixelWidth`/`pixelHeight` device scales), and sort by descending z-value. -/
def pointsAt (s : Scatter) (px py pw ph : ℚ) : Res (List SpotItem) :=
  let r : Res Unit :=
    if s.spotsValid then ⟨.ok (), s, []⟩ else generateSpots s
  match r.val with
  | .error e => ⟨.error e, r.state, r.emits⟩
  | .ok _ =>
    let st := r.state
    let hits := st.spots.filter (inBoxB px py pw ph st.opts.pxMode)
    ⟨.ok (hits.insertionSort zGE), st, r.emits⟩

/-- Extracted result list of `pointsAt` (empty when the call raised). -/
def pointsAtRes (s : Scatter) (px py pw ph : ℚ) : List SpotItem :=
  ((pointsAt s px py pw ph).val).toOption.getD []

/-- Embeds `ScatterPlotItem.boundingRect`: both axes' full-extent bounds with
`(None, None)` degrading to 0, returned as `(x, y, w, h)`; the two
`dataBounds` calls may populate the cache, so the state is threaded. -/
def boundingRect (s : Scatter) : Res (ℚ × ℚ × ℚ × ℚ) :=
  let r0 := dataBounds s 0 1
  match r0.val with
  | .error e => ⟨.error e, r0.state, r0.emits⟩
  | .ok b0 =>
    let r1 := dataBounds r0.state 1 1
    match r1.val with
    | .error e => ⟨.error e, r1.state, r1.emits⟩
    | .ok b1 =>
      let (xmn, xmx) := b0.getD (0, 0)
      let (ymn, ymx) := b1.getD (0, 0)
      ⟨.ok (xmn, ymn, xmx - xmn, ymx - ymn), r1.state, r0.emits ++ r1.emits⟩

/-- Mouse buttons of the external event object. -/
inductive MouseButton where
  | left
  | right
  | middle
deriving DecidableEq

/-- Embeds `ScatterPlotItem.mouseClickEvent`: on the left button compute
`pointsAt(ev.pos())`; a non-empty hit set is recorded in `ptsClicked`,
`sigClicked` is emitted and the event accepted (`.ok true`); otherwise, and
for any other button, the event is ignored (`.ok false`). -/
def mouseClickEvent (s : Scatter) (btn : MouseButton) (px py pw ph : ℚ) : Res Bool :=
  match btn with
  | .left =>
    let r := pointsAt s px py pw ph
    match r.val with
    | .error e => ⟨.error e, r.state, r.emits⟩
    | .ok pts =>
      if 0 < pts.length then
        ⟨.ok true, { r.state with ptsClicked := pts }, r.emits ++ [.clicked pts]⟩
      else ⟨.ok false, r.state, r.emits⟩
  | _ => ⟨.ok false, s, []⟩

/-- Embeds `ScatterPlotItem.__init__` with no arguments: the default options
set by the constructor's `setPen(200,200,200)` … `setIdentical(False)`
calls, followed by `setData()` with no data (an empty record array). -/
def initState : Scatter :=
  let s : Scatter :=
    { data := none, pointData := [], spots := [], bounds0 := none, bounds1 := none,
      opts := ⟨⟨200, 200, 200⟩, ⟨100, 100, 150⟩, .chSym 'o', 7, true, false⟩,
      spotsValid := false, spotPixmapCache := none, nextId := 0, ptsClicked := [] }
  setDataPos s []

/-- One call to any of the seven attribute mutators (the ones other than
`setData`, `addPoints` and `clear`), with its argument. -/
inductive Mutator where
  | penScalar (p : Pen)
  | penSeq (ps : List Pen)
  | brushScalar (b : Brush)
  | brushSeq (bs : List Brush)
  | sizeScalar (v : ℚ)
  | sizeSeq (vs : List ℚ)
  | symScalar (a : SymbolArg)
  | symSeq (syms : List SymbolArg)
  | pointDataSeq (ms : List (Option MetaVal))
  | pxModeFlag (b : Bool)
  | identicalFlag (b : Bool)

/-- Dispatch a `Mutator` to the corresponding embedded setter. -/
def applyMutator (m : Mutator) (s : Scatter) : (Option Err) × Scatter :=
  match m with
  | .penScalar p => (none, setPenScalar s p)
  | .penSeq ps => setPenSeq s ps
  | .brushScalar b => (none, setBrushScalar s b)
  | .brushSeq bs => setBrushSeq s bs
  | .sizeScalar v => (none, setSizeScalar s v)
  | .sizeSeq vs => setSizeSeq s vs
  | .symScalar a => (none, setSymbolScalar s a)
  | .symSeq syms => setSymbolSeq s syms
  | .pointDataSeq ms => setPointDataSeq s ms
  | .pxModeFlag b => (none, setPxModeFlag s b)
  | .identicalFlag b => (none, setIdenticalFlag s b)

/-- Length of a `Mutator`'s per-point override sequence (`none` for the scalar
and flag forms). -/
def seqArgLen : Mutator → Option ℕ
  | .penSeq ps => some ps.length
  | .brushSeq bs => some bs.length
  | .sizeSeq vs => some vs.length
  | .symSeq syms => some syms.length
  | .pointDataSeq ms => some ms.length
  | _ => none

instance : Inhabited SpotItem :=
  ⟨⟨0, 0, ⟨0, false, 0, ⟨0, 0, 0⟩, ⟨0, 0, 0⟩, 'o', [], none⟩, none, 0, 0⟩⟩

/-! ### Helper lemmas about the extremum scan -/

theorem argminIdx_getD : ∀ (l : List ℚ), l ≠ [] → l.getD (argminIdx l) 0 = listMin l
  | [], h => absurd rfl h
  | [_], _ => rfl
  | a :: b :: rest, _ => by
    have ih := argminIdx_getD (b :: rest) (List.cons_ne_nil _ _)
    show (a :: b :: rest).getD (argminIdx (a :: b :: rest)) 0 = listMin (a :: b :: rest)
    simp only [argminIdx, listMin]
    split
    next h =>
      rw [List.getD_cons_succ, ih]
      rw [ih] at h
      exact (min_eq_right h.le).symm
    next h =>
      rw [List.getD_cons_zero]
      rw [ih] at h
      exact (min_eq_left (not_lt.mp h)).symm

theorem argmaxIdx_getD : ∀ (l : List ℚ), l ≠ [] → l.getD (argmaxIdx l) 0 = listMax l
  | [], h => absurd rfl h
  | [_], _ => rfl
  | a :: b :: rest, _ => by
    have ih := argmaxIdx_getD (b :: rest) (List.cons_ne_nil _ _)
    show (a :: b :: rest).getD (argmaxIdx (a :: b :: rest)) 0 = listMax (a :: b :: rest)
    simp only [argmaxIdx, listMax]
    split
    next h =>
      rw [List.getD_cons_succ, ih]
      rw [ih] at h
      exact (max_eq_right h.le).symm
    next h =>
      rw [List.getD_cons_zero]
      rw [ih] at h
      exact (max_eq_left (not_lt.mp h)).symm

theorem listMin_le : ∀ (l : List ℚ), ∀ v ∈ l, listMin l ≤ v
  | [], v, hv => absurd hv (List.not_mem_nil v)
  | [a], v, hv => by
    rcases List.mem_singleton.mp hv with rfl
    exact le_refl _
  | a :: b :: rest, v, hv => by
    rcases List.mem_cons.mp hv with rfl | hv2
    · exact min_le_left _ _
    · exact le_trans (min_le_right _ _) (listMin_le (b :: rest) v hv2)

theorem le_listMax : ∀ (l : List ℚ), ∀ v ∈ l, v ≤ listMax l
  | [], v, hv => absurd hv (List.not_mem_nil v)
  | [a], v, hv => by
    rcases List.mem_singleton.mp hv with rfl
    exact le_refl _
  | a :: b :: rest, v, hv => by
    rcases List.mem_cons.mp hv with rfl | hv2
    · exact le_max_left _ _
    · exact le_trans (le_listMax (b :: rest) v hv2) (le_max_right _ _)

theorem listMin_mem : ∀ (l : List ℚ), l ≠ [] → listMin l ∈ l
  | [], h => absurd rfl h
  | [a], _ => List.mem_singleton.mpr rfl
  | a :: b :: rest, _ => by
    rcases le_total a (listMin (b :: rest)) with h | h
    · simp only [listMin, min_eq_left h]
      exact List.mem_cons_self _ _
    · simp only [listMin, min_eq_right h]
      exact List.mem_cons_of_mem _ (listMin_mem (b :: rest) (List.cons_ne_nil _ _))

theorem listMax_mem : ∀ (l : List ℚ), l ≠ [] → listMax l ∈ l
  | [], h => absurd rfl h
  | [a], _ => List.mem_singleton.mpr rfl
  | a :: b :: rest, _ => by
    rcases le_total (listMax (b :: rest)) a with h | h
    · simp only [listMax, max_eq_left h]
      exact List.mem_cons_self _ _
    · simp only [listMax, max_eq_right h]
      exact List.mem_cons_of_mem _ (listMax_mem (b :: rest) (List.cons_ne_nil _ _))

theorem axisCol_ne_nil (d : List PointRec) (ax : Fin 2) (h : d ≠ []) :
    axisCol d ax ≠ [] := by
  unfold axisCol
  split <;> simpa using h

/-- The pair that a fresh (uncached) `dataBounds(ax, 1.0)` call computes: the
exact extrema of the axis column, each shifted outward by the raw `size`
field of the first extreme record when not in pixel mode. -/
def freshPair (s : Scatter) (d : List PointRec) (ax : Fin 2) : ℚ × ℚ :=
  (if s.opts.pxMode then listMin (axisCol d ax)
   else listMin (axisCol d ax) - (d.getD (argminIdx (axisCol d ax)) default).size,
   if s.opts.pxMode then listMax (axisCol d ax)
   else listMax (axisCol d ax) + (d.getD (argmaxIdx (axisCol d ax)) default).size)

/-- Characterization of `dataBounds` at `frac = 1` when the axis cache is
empty and the dataset is non-empty: it returns `freshPair` and the new state
caches exactly that pair. -/
theorem dataBounds_one_fresh (s : Scatter) (d : List PointRec) (ax : Fin 2)
    (hd : s.data = some d) (hne : d ≠ []) (hb : s.boundsAx ax = none) :
    dataBounds s ax 1 =
      ⟨Except.ok (some (freshPair s d ax)), s.setBoundsAx ax (freshPair s d ax), []⟩ := by
  have hcol : axisCol d ax ≠ [] := axisCol_ne_nil d ax hne
  have hlen : d.length ≠ 0 := fun h0 => hne (List.length_eq_zero.mp h0)
  have hmin := argminIdx_getD _ hcol
  have hmax := argmaxIdx_getD _ hcol
  unfold dataBounds freshPair
  rw [hb]
  simp only [Option.isSome_none, Bool.false_eq_true, and_false, if_false, hd]
  rw [if_neg hlen, if_pos (le_refl (1 : ℚ)), hmin, hmax]

/-! ### Concrete states used by the claim theorems -/

/-- One point at the origin with explicit per-point size 2, pixel mode off. -/
def stC1 : Scatter :=
  (setSizeSeq (setPxModeFlag (setDataPos initState [(0, 0)]) false) [2]).2

/-- The record list held by `stC1`. -/
def dC1 : List PointRec := [⟨0, 0, 2, none, none, none, none⟩]

/-! ### Claim C1 -/

/-- C1 counterexample: with pixel mode off and a single point at the origin of
per-point size 2, `dataBounds(0, 1.0)` returns `(-2, 2)` — the extrema
expanded by the FULL size on each side — whereas the claim's half-size
expansion would give `(-1, 1)`. -/
theorem c1_counterexample :
    (dataBounds stC1 0 1).val = Except.ok (some (-2, 2)) ∧
      ((-2 : ℚ), (2 : ℚ)) ≠ ((-1 : ℚ), (1 : ℚ)) := by
  exact ⟨by decide, by decide⟩

/-- C1 (amended): for every non-empty dataset with a fresh axis cache, when
pixel mode is off `dataBounds(ax, 1.0)` returns the exact minimum and
maximum coordinate along that axis, each expanded outward by the FULL raw
stored per-point `size` of the (first) extreme point — the `-1` size
sentinel is used as-is, with no substitution of the collection default, so
sentinel sizes shrink the bounds by 1 — and with pixel mode on it returns
the exact extrema with no expansion.  The returned low/high values are the
true extrema of the axis column. -/
theorem c1_amended (s : Scatter) (d : List PointRec) (ax : Fin 2)
    (hd : s.data = some d) (hne : d ≠ []) (hb : s.boundsAx ax = none) :
    (dataBounds s ax 1).val = Except.ok (some (freshPair s d ax)) ∧
      (s.opts.pxMode = true → freshPair s d ax = (listMin (axisCol d ax), listMax (axisCol d ax))) ∧
      (s.opts.pxMode = false →
        freshPair s d ax =
          (listMin (axisCol d ax) - (d.getD (argminIdx (axisCol d ax)) default).size,
           listMax (axisCol d ax) + (d.getD (argmaxIdx (axisCol d ax)) default).size)) ∧
      (∀ v ∈ axisCol d ax, listMin (axisCol d ax) ≤ v ∧ v ≤ listMax (axisCol d ax)) ∧
      listMin (axisCol d ax) ∈ axisCol d ax ∧ listMax (axisCol d ax) ∈ axisCol d ax := by
  have hcol : axisCol d ax ≠ [] := axisCol_ne_nil d ax hne
  refine ⟨by rw [dataBounds_one_fresh s d ax hd hne hb], ?_, ?_, ?_, ?_, ?_⟩
  · intro hpx
    simp [freshPair, hpx]
  · intro hpx
    simp [freshPair, hpx]
  · exact fun v hv => ⟨listMin_le _ v hv, le_listMax _ v hv⟩
  · exact listMin_mem _ hcol
  · exact listMax_mem _ hcol

/-- C1 witness: the amended theorem applied to `stC1` evaluates to `(-2, 2)`. -/
theorem c1_amended_witness :
    (dataBounds stC1 0 1).val = Except.ok (some (-2, 2)) ∧
      freshPair stC1 dC1 0 = (-2, 2) := by
  have h := c1_amended stC1 dC1 0 (by decide) (by decide) (by decide)
  refine ⟨h.1.trans ?_, ?_⟩ <;> decide

/-! ### Claim C4 -/

/-- C4 counterexample: on the empty dataset of a freshly constructed item,
`dataBounds(0, 0)` returns the `(None, None)` sentinel instead of failing,
refuting "for every fraction <= 0 and every dataset state (including an
empty or absent dataset), dataBounds fails". -/
theorem c4_counterexample :
    (dataBounds initState 0 0).val = Except.ok none := by decide

/-- C4 (amended): for `frac <= 0`, `dataBounds` fails with the
invalid-parameter error only when the dataset is present and non-empty; an
absent or empty dataset short-circuits to the `(None, None)` sentinel before
the fraction check.  For `frac = 1` with a fresh cache and pixel mode on it
returns the exact min/max of the axis column. -/
theorem c4_amended (s : Scatter) (ax : Fin 2) (frac : ℚ) (hf : frac ≤ 0) :
    (s.data = none → dataBounds s ax frac = ⟨Except.ok none, s, []⟩) ∧
    (s.data = some [] → dataBounds s ax frac = ⟨Except.ok none, s, []⟩) ∧
    (∀ d, s.data = some d → d ≠ [] →
      dataBounds s ax frac = ⟨Except.error Err.invalidFrac, s, []⟩) ∧
    (∀ d, s.data = some d → d ≠ [] → s.boundsAx ax = none → s.opts.pxMode = true →
      (dataBounds s ax 1).val =
        Except.ok (some (listMin (axisCol d ax), listMax (axisCol d ax)))) := by
  have h1 : ¬ (1 : ℚ) ≤ frac := by linarith
  refine ⟨?_, ?_, ?_, ?_⟩
  · intro hd
    unfold dataBounds
    rw [hd]
    simp [h1]
  · intro hd
    unfold dataBounds
    rw [hd]
    simp [h1]
  · intro d hd hne
    have hlen : d.length ≠ 0 := fun h0 => hne (List.length_eq_zero.mp h0)
    unfold dataBounds
    rw [hd]
    simp [h1, hlen, hf]
  · intro d hd hne hb hpx
    rw [(dataBounds_one_fresh s d ax hd hne hb)]
    simp [freshPair, hpx]

/-- State with three points `(0,0), (5,3), (-2,8)` and default options. -/
def stC4 : Scatter := setDataPos initState [(0, 0), (5, 3), (-2, 8)]

/-- The record list held by `stC4`. -/
def dC4 : List PointRec :=
  [⟨0, 0, -1, none, none, none, none⟩, ⟨5, 3, -1, none, none, none, none⟩,
   ⟨-2, 8, -1, none, none, none, none⟩]

/-- C4 witness: on the three-point dataset, `frac = -1` raises the
invalid-parameter error and `frac = 1` returns the exact extrema `(-2, 5)`
along the x axis. -/
theorem c4_amended_witness :
    dataBounds stC4 0 (-1) = ⟨Except.error Err.invalidFrac, stC4, []⟩ ∧
      (dataBounds stC4 0 1).val = Except.ok (some (-2, 5)) := by
  have h := c4_amended stC4 0 (-1) (by norm_num)
  refine ⟨h.2.2.1 dC4 (by decide) (by decide), ?_⟩
  have h2 := h.2.2.2 dC4 (by decide) (by decide) (by decide) (by decide)
  rw [h2]
  decide

/-! ### Claim C2 -/

/-- State after `setData` with one point followed by `addPoints` with one
point. -/
def stC2 : Scatter := (addPointsPos (setDataPos initState [(0, 0)]) [(1, 1)]).1

/-- C2: `addPoints` concatenates the record arrays (so the dataset has
|A|+|B| = 2 records), but the inner `setData` call rebuilt `self.pointData`
for the new points only (length 1), so the next materialization —
triggered here by `points()` — indexes `pointData[1]` out of range and
raises instead of returning the 2 combined points the claim (and the
`addPoints` docstring) promise. -/
theorem c2_bug :
    (stC2.data.getD []).length = 2 ∧ stC2.pointData.length = 1 ∧
      (pointsOf stC2).val = Except.error Err.npIndexErr :=
  ⟨by decide, by decide, by decide⟩

/-! ### Claim C7 -/

/-- State after `setData` with one point followed by `clear()`. -/
def stC7 : Scatter := clearData (setDataPos initState [(0, 0)])

/-- C7: after `clear()`, `boundingRect()` does return the zero-area rect at
the origin, but `points()` does not return an empty sequence: the validity
flag is false and `self.data` is `None`, so the `generateSpots` call inside
`points()` subscripts `None` and raises a `TypeError` — contradicting the
claim (and the spec's testable property) that `points()` after `clear()`
is empty. -/
theorem c7_bug :
    (pointsOf stC7).val = Except.error Err.noneTypeErr ∧
      (boundingRect stC7).val = Except.ok (0, 0, 0, 0) :=
  ⟨by decide, by decide⟩

/-! ### Claim C5 -/

/-- C5: a per-point override sequence passed to `setPen`, `setBrush`,
`setSize`, `setSymbol` or `setPointData` whose length differs from the
current point count makes the call fail with the length-mismatch error
carrying both lengths, and returns the state exactly as it was — the
length validation runs before any mutation, so no per-point value and no
collection default changes. -/
theorem c5_length_mismatch (m : Mutator) (s : Scatter) (d : List PointRec) (n : ℕ)
    (hd : s.data = some d) (hn : seqArgLen m = some n) (hne : n ≠ d.length) :
    applyMutator m s = (some (Err.lengthMismatch n d.length), s) := by
  cases m with
  | penScalar p => exact absurd hn (by simp [seqArgLen])
  | brushScalar b => exact absurd hn (by simp [seqArgLen])
  | sizeScalar v => exact absurd hn (by simp [seqArgLen])
  | symScalar a => exact absurd hn (by simp [seqArgLen])
  | pxModeFlag b => exact absurd hn (by simp [seqArgLen])
  | identicalFlag b => exact absurd hn (by simp [seqArgLen])
  | penSeq ps =>
    obtain rfl : ps.length = n := Option.some.inj (by simpa [seqArgLen] using hn)
    simp [applyMutator, setPenSeq, hd, hne]
  | brushSeq bs =>
    obtain rfl : bs.length = n := Option.some.inj (by simpa [seqArgLen] using hn)
    simp [applyMutator, setBrushSeq, hd, hne]
  | sizeSeq vs =>
    obtain rfl : vs.length = n := Option.some.inj (by simpa [seqArgLen] using hn)
    simp [applyMutator, setSizeSeq, hd, hne]
  | symSeq syms =>
    obtain rfl : syms.length = n := Option.some.inj (by simpa [seqArgLen] using hn)
    simp [applyMutator, setSymbolSeq, hd, hne]
  | pointDataSeq ms =>
    obtain rfl : ms.length = n := Option.some.inj (by simpa [seqArgLen] using hn)
    simp [applyMutator, setPointDataSeq, hd, hne]

/-- State with five points and default options. -/
def stC5 : Scatter := setDataPos initState [(0, 0), (1, 1), (2, 2), (3, 3), (4, 4)]

/-- The record list held by `stC5`. -/
def dC5 : List PointRec :=
  [⟨0, 0, -1, none, none, none, none⟩, ⟨1, 1, -1, none, none, none, none⟩,
   ⟨2, 2, -1, none, none, none, none⟩, ⟨3, 3, -1, none, none, none, none⟩,
   ⟨4, 4, -1, none, none, none, none⟩]

/-- C5 witness: 3 pens for 5 points fails with `lengthMismatch 3 5` and
leaves the state untouched. -/
theorem c5_length_mismatch_witness :
    applyMutator (Mutator.penSeq [⟨1, 0, 0⟩, ⟨0, 1, 0⟩, ⟨0, 0, 1⟩]) stC5 =
      (some (Err.lengthMismatch 3 5), stC5) := by
  have h := c5_length_mismatch (Mutator.penSeq [⟨1, 0, 0⟩, ⟨0, 1, 0⟩, ⟨0, 0, 1⟩])
    stC5 dC5 3 (by decide) (by decide) (by decide)
  simpa using h

/-! ### Claim C6 -/

/-- C6 counterexample: integer symbol code `-1` is outside 0..4, yet the glyph
construction succeeds — Python list indexing maps it from the end of the
table to `'+'` — instead of failing with the unknown-symbol error. -/
theorem c6_counterexample :
    buildPath (SymbolArg.intSym (-1)) = buildPath (SymbolArg.chSym '+') ∧
      buildPath (SymbolArg.intSym (-1)) ≠ Except.error Err.unknownSymbol :=
  ⟨by decide, by decide⟩

/-- C6 (amended): integer symbol codes 0–4 map positionally to
`'o','s','t','d','+'` (in particular `2` and `'t'` give identical paths);
integers −5..−1 also succeed, selecting from the end of the table (Python
negative list indexing); integers below −5 or above 4 fail with a plain
list-index error (not the unknown-symbol error); an unrecognized
non-integer character code fails with the unknown-symbol error. -/
theorem c6_amended (i : ℤ) (c : Char) :
    (buildPath (SymbolArg.intSym 2) = buildPath (SymbolArg.chSym 't') ∧
       buildPath (SymbolArg.chSym 't') = Except.ok
         [.moveTo (-(1/2)) (-(1/2)), .lineTo 0 (1/2), .lineTo (1/2) (-(1/2)), .closeSub]) ∧
    (0 ≤ i → i < 5 →
       buildPath (SymbolArg.intSym i) = buildPath (SymbolArg.chSym (symbolTable.getD i.toNat 'o'))) ∧
    (-5 ≤ i → i < 0 →
       buildPath (SymbolArg.intSym i) =
         buildPath (SymbolArg.chSym (symbolTable.getD (5 + i).toNat 'o'))) ∧
    (i < -5 ∨ 5 ≤ i → buildPath (SymbolArg.intSym i) = Except.error Err.listIndexErr) ∧
    (c ∉ ['o', 's', 't', 'd', '+', '^'] → ¬ c.isDigit →
       buildPath (SymbolArg.chSym c) = Except.error Err.unknownSymbol) := by
  refine ⟨⟨by decide, by decide⟩, ?_, ?_, ?_, ?_⟩
  · intro h1 h2
    interval_cases i <;> decide
  · intro h1 h2
    interval_cases i <;> decide
  · intro h
    have h1 : ¬ (0 ≤ i ∧ i < 5) := by omega
    have h2 : ¬ (-5 ≤ i ∧ i < 0) := by omega
    simp [buildPath, resolveSymbol, tryIntCast, h1, h2]
  · intro hmem hdig
    simp only [List.mem_cons, List.mem_singleton, not_or] at hmem
    obtain ⟨h1, h2, h3, h4, h5, h6⟩ := hmem
    simp [buildPath, resolveSymbol, tryIntCast, setPath, hdig, h1, h2, h3, h4, h5, h6]

/-- C6 witness: integer 7 fails with the list-index error, integer 3 matches
`'d'`, and the unrecognized character `'q'` fails with the unknown-symbol
error. -/
theorem c6_amended_witness :
    buildPath (SymbolArg.intSym 7) = Except.error Err.listIndexErr ∧
      buildPath (SymbolArg.intSym 3) = buildPath (SymbolArg.chSym 'd') ∧
      buildPath (SymbolArg.chSym 'q') = Except.error Err.unknownSymbol := by
  refine ⟨(c6_amended 7 'q').2.2.2.1 (Or.inr (by norm_num)), ?_,
    (c6_amended 7 'q').2.2.2.2 (by decide) (by decide)⟩
  have h := (c6_amended 3 'q').2.1 (by norm_num) (by norm_num)
  rw [h]
  decide

/-! ### Claim C10 -/

/-- Frame facts holding for every mutator call, successful or not: the cached
per-axis bounds and the identical-mode glyph cache are never touched (a
failed call returns the input state unchanged, a successful one only calls
`updateSpots`). -/
theorem applyMutator_frame (m : Mutator) (s : Scatter) :
    (applyMutator m s).2.bounds0 = s.bounds0 ∧
    (applyMutator m s).2.bounds1 = s.bounds1 ∧
    (applyMutator m s).2.spotPixmapCache = s.spotPixmapCache := by
  cases m with
  | penScalar p => exact ⟨rfl, rfl, rfl⟩
  | brushScalar b => exact ⟨rfl, rfl, rfl⟩
  | sizeScalar v => exact ⟨rfl, rfl, rfl⟩
  | symScalar a => exact ⟨rfl, rfl, rfl⟩
  | pxModeFlag b => exact ⟨rfl, rfl, rfl⟩
  | identicalFlag b => exact ⟨rfl, rfl, rfl⟩
  | penSeq ps =>
    simp only [applyMutator, setPenSeq]
    rcases hd : s.data with _ | d <;> simp only [hd]
    · simp [updateSpots]
    · split <;> simp [updateSpots]
  | brushSeq bs =>
    simp only [applyMutator, setBrushSeq]
    rcases hd : s.data with _ | d <;> simp only [hd]
    · simp [updateSpots]
    · split <;> simp [updateSpots]
  | sizeSeq vs =>
    simp only [applyMutator, setSizeSeq]
    rcases hd : s.data with _ | d <;> simp only [hd]
    · simp [updateSpots]
    · split <;> simp [updateSpots]
  | symSeq syms =>
    simp only [applyMutator, setSymbolSeq]
    rcases hd : s.data with _ | d <;> simp only [hd]
    · simp [updateSpots]
    · split <;> simp [updateSpots]
  | pointDataSeq ms =>
    simp only [applyMutator, setPointDataSeq]
    rcases hd : s.data with _ | d <;> simp only [hd]
    · simp [updateSpots]
    · split <;> simp [updateSpots]

/-- A successful mutator call ends in `updateSpots`, so the validity flag is
cleared. -/
theorem applyMutator_valid (m : Mutator) (s : Scatter)
    (hsucc : (applyMutator m s).1 = none) :
    (applyMutator m s).2.spotsValid = false := by
  cases m with
  | penScalar p => rfl
  | brushScalar b => rfl
  | sizeScalar v => rfl
  | symScalar a => rfl
  | pxModeFlag b => rfl
  | identicalFlag b => rfl
  | penSeq ps =>
    simp only [applyMutator, setPenSeq] at hsucc ⊢
    rcases hd : s.data with _ | d <;> simp only [hd] at hsucc ⊢
    · exact absurd hsucc (by simp)
    · split at hsucc <;> simp_all <;> rfl
  | brushSeq bs =>
    simp only [applyMutator, setBrushSeq] at hsucc ⊢
    rcases hd : s.data with _ | d <;> simp only [hd] at hsucc ⊢
    · exact absurd hsucc (by simp)
    · split at hsucc <;> simp_all <;> rfl
  | sizeSeq vs =>
    simp only [applyMutator, setSizeSeq] at hsucc ⊢
    rcases hd : s.data with _ | d <;> simp only [hd] at hsucc ⊢
    · exact absurd hsucc (by simp)
    · split at hsucc <;> simp_all <;> rfl
  | symSeq syms =>
    simp only [applyMutator, setSymbolSeq] at hsucc ⊢
    rcases hd : s.data with _ | d <;> simp only [hd] at hsucc ⊢
    · exact absurd hsucc (by simp)
    · split at hsucc <;> simp_all <;> rfl
  | pointDataSeq ms =>
    simp only [applyMutator, setPointDataSeq] at hsucc ⊢
    rcases hd : s.data with _ | d <;> simp only [hd] at hsucc ⊢
    · exact absurd hsucc (by simp)
    · split at hsucc <;> simp_all <;> rfl

/-- C10: every successful call of a mutator other than `setData`, `addPoints`
and `clear` (`setPen`, `setBrush`, `setSize`, `setSymbol`, `setPointData`,
`setPxMode`, `setIdentical`, in either scalar or per-point form) clears the
marker-validity flag but leaves the cached per-axis bounds in place, so a
subsequent `dataBounds(ax, 1.0)` on a collection whose bounds were already
cached returns the pre-mutation tuple (and does not recompute it from the
new attributes). -/
theorem c10_stale_bounds (m : Mutator) (s : Scatter)
    (hsucc : (applyMutator m s).1 = none) :
    (applyMutator m s).2.spotsValid = false ∧
    (applyMutator m s).2.bounds0 = s.bounds0 ∧
    (applyMutator m s).2.bounds1 = s.bounds1 ∧
    (∀ (ax : Fin 2) (b : ℚ × ℚ), s.boundsAx ax = some b →
      dataBounds (applyMutator m s).2 ax 1 =
        ⟨Except.ok (some b), (applyMutator m s).2, []⟩) := by
  obtain ⟨hb0, hb1, _⟩ := applyMutator_frame m s
  refine ⟨applyMutator_valid m s hsucc, hb0, hb1, ?_⟩
  intro ax b hb
  have hax : (applyMutator m s).2.boundsAx ax = some b := by
    unfold Scatter.boundsAx at hb ⊢
    rw [hb0, hb1]
    exact hb
  unfold dataBounds
  rw [hax]
  norm_num

/-- State with two points whose x-axis bounds `(0, 5)` have been computed and
cached by a `dataBounds` call. -/
def sW10 : Scatter := (dataBounds (setDataPos initState [(0, 0), (5, 3)]) 0 1).state

/-- C10 witness: after `setSize(10)` on `sW10`, the validity flag is cleared
and `dataBounds(0, 1.0)` still returns the cached `(0, 5)`. -/
theorem c10_stale_bounds_witness :
    (applyMutator (Mutator.sizeScalar 10) sW10).2.spotsValid = false ∧
      dataBounds (applyMutator (Mutator.sizeScalar 10) sW10).2 0 1 =
        ⟨Except.ok (some (0, 5)), (applyMutator (Mutator.sizeScalar 10) sW10).2, []⟩ := by
  have h := c10_stale_bounds (Mutator.sizeScalar 10) sW10 (by decide)
  exact ⟨h.1, h.2.2.2 0 (0, 5) (by decide)⟩

/-! ### Claims C3 and C8: hit testing and click handling -/

/-- On a valid (materialized) collection, `pointsAt` performs no
re-materialization: it returns the filtered spots sorted by descending
z-value, leaves the state unchanged and emits nothing. -/
theorem pointsAt_valid (s : Scatter) (px py pw ph : ℚ) (hv : s.spotsValid = true) :
    pointsAt s px py pw ph =
      ⟨Except.ok ((s.spots.filter (inBoxB px py pw ph s.opts.pxMode)).insertionSort zGE),
       s, []⟩ := by
  unfold pointsAt
  rw [hv]
  rfl

/-- `pointsAtRes` on a valid collection is the sorted filtered spot list. -/
theorem pointsAtRes_valid (s : Scatter) (px py pw ph : ℚ) (hv : s.spotsValid = true) :
    pointsAtRes s px py pw ph =
      (s.spots.filter (inBoxB px py pw ph s.opts.pxMode)).insertionSort zGE := by
  unfold pointsAtRes
  rw [pointsAt_valid s px py pw ph hv]
  rfl

/-- State with one point at the origin, per-point size 0, pixel mode off. -/
def stC3 : Scatter :=
  (setSizeSeq (setPxModeFlag (setDataPos initState [(0, 0)]) false) [0]).2

/-- C3 counterexample: the collection materializes exactly one marker centred
at the origin (with resolved size 0), yet `pointsAt((0,0))` returns the
empty sequence — the hit test uses strict inequalities, so a position
exactly at a marker's centre is NOT always included. -/
theorem c3_counterexample :
    ((pointsAt stC3 0 0 1 1).state.spots.map (fun sp => (sp.posX, sp.posY))) = [(0, 0)] ∧
      (pointsAt stC3 0 0 1 1).val = Except.ok [] :=
  ⟨by decide, by decide⟩

/-- C3 (amended): on a materialized collection, `pointsAt(p)` returns exactly
the marker instances whose OPEN axis-aligned box of half-extents `size/2`
(each scaled by the per-axis pixel scale in pixel mode) strictly contains
`p`, sorted by descending z-value; a position exactly at a marker's centre
is included provided both half-extents are positive (which the strict
inequalities require), and a position outside every marker's box yields the
empty sequence. -/
theorem c3_amended (s : Scatter) (px py pw ph : ℚ) (hv : s.spotsValid = true) :
    (pointsAt s px py pw ph).val = Except.ok (pointsAtRes s px py pw ph) ∧
    (pointsAtRes s px py pw ph).Perm (s.spots.filter (inBoxB px py pw ph s.opts.pxMode)) ∧
    List.Sorted zGE (pointsAtRes s px py pw ph) ∧
    (∀ sp ∈ s.spots, 0 < halfExt s.opts.pxMode pw sp → 0 < halfExt s.opts.pxMode ph sp →
       px = sp.posX → py = sp.posY → sp ∈ pointsAtRes s px py pw ph) ∧
    ((∀ sp ∈ s.spots, inBoxB px py pw ph s.opts.pxMode sp = false) →
       pointsAtRes s px py pw ph = []) := by
  have hres := pointsAtRes_valid s px py pw ph hv
  refine ⟨?_, ?_, ?_, ?_, ?_⟩
  · rw [pointsAt_valid s px py pw ph hv, hres]
  · rw [hres]
    exact List.perm_insertionSort zGE _
  · rw [hres]
    exact List.sorted_insertionSort zGE _
  · intro sp hsp hx hy hpx hpy
    rw [hres]
    rw [(List.perm_insertionSort zGE _).mem_iff]
    refine List.mem_filter.mpr ⟨hsp, ?_⟩
    subst hpx
    subst hpy
    simp only [inBoxB, Bool.and_eq_true, decide_eq_true_eq]
    exact ⟨⟨⟨sub_lt_self _ hx, lt_add_of_pos_right _ hx⟩, sub_lt_self _ hy⟩,
      lt_add_of_pos_right _ hy⟩
  · intro hall
    rw [hres]
    have hf : s.spots.filter (inBoxB px py pw ph s.opts.pxMode) = [] :=
      List.filter_eq_nil_iff.mpr (fun a ha => by rw [hall a ha]; simp)
    rw [hf]
    rfl

/-- A materialized one-point collection with default options. -/
def stMat : Scatter := (pointsOf (setDataPos initState [(0, 0)])).state

/-- C3 witness: on the materialized one-point collection, the marker is
included at its own centre (its half-extents `7/2` are positive) and a
far-away position hits nothing. -/
theorem c3_amended_witness :
    (stMat.spots.getD 0 default) ∈ pointsAtRes stMat 0 0 1 1 ∧
      pointsAtRes stMat 5 5 1 1 = [] := by
  have h := c3_amended stMat 0 0 1 1 (by decide)
  have h2 := c3_amended stMat 5 5 1 1 (by decide)
  constructor
  · exact h.2.2.2.1 _ (by decide) (by decide) (by decide) (by decide) (by decide)
  · exact h2.2.2.2.2 (by decide)

/-- C8: on a materialized collection, a primary-button click at a position
with at least one hit fires exactly one `sigClicked` carrying the ordered
hit set, records it in `ptsClicked` and accepts the event; a primary-button
click with zero hits, and any click with another button, fires nothing and
leaves the event ignored and the state unchanged. -/
theorem c8_click (s : Scatter) (btn : MouseButton) (px py pw ph : ℚ)
    (hv : s.spotsValid = true) :
    (btn = MouseButton.left → pointsAtRes s px py pw ph ≠ [] →
       mouseClickEvent s btn px py pw ph =
         ⟨Except.ok true, { s with ptsClicked := pointsAtRes s px py pw ph },
          [Emission.clicked (pointsAtRes s px py pw ph)]⟩) ∧
    (btn = MouseButton.left → pointsAtRes s px py pw ph = [] →
       mouseClickEvent s btn px py pw ph = ⟨Except.ok false, s, []⟩) ∧
    (btn ≠ MouseButton.left → mouseClickEvent s btn px py pw ph = ⟨Except.ok false, s, []⟩) := by
  have hp := pointsAt_valid s px py pw ph hv
  have hr := pointsAtRes_valid s px py pw ph hv
  refine ⟨?_, ?_, ?_⟩
  · rintro rfl hne
    have hlen : 0 < (pointsAtRes s px py pw ph).length := List.length_pos.mpr hne
    rw [hr] at hlen ⊢
    unfold mouseClickEvent
    rw [hp]
    dsimp only
    rw [if_pos hlen]
    simp
  · rintro rfl hnil
    rw [hr] at hnil
    unfold mouseClickEvent
    rw [hp]
    dsimp only
    rw [hnil]
    simp
  · intro hbtn
    cases btn with
    | left => exact absurd rfl hbtn
    | right => rfl
    | middle => rfl

/-- C8 witness: a left click at the marker's centre fires exactly one
`sigClicked` with the one-element hit set and accepts the event; a right
click at the same position fires nothing and ignores the event. -/
theorem c8_click_witness :
    mouseClickEvent stMat MouseButton.left 0 0 1 1 =
        ⟨Except.ok true, { stMat with ptsClicked := pointsAtRes stMat 0 0 1 1 },
         [Emission.clicked (pointsAtRes stMat 0 0 1 1)]⟩ ∧
      mouseClickEvent stMat MouseButton.right 0 0 1 1 = ⟨Except.ok false, stMat, []⟩ := by
  have h := c8_click stMat MouseButton.left 0 0 1 1 (by decide)
  have h2 := c8_click stMat MouseButton.right 0 0 1 1 (by decide)
  exact ⟨h.1 rfl (by decide), h2.2.2 (by decide)⟩

/-! ### Claim C9: glyph-cache sharing -/

/-- A successful `SpotPixmap` construction carries the identity supplied by
the caller's counter. -/
theorem mkSpotPixmap_id (n : ℕ) (pxm : Bool) (sz : ℚ) (pn : Pen) (br : Brush)
    (sym : SymbolArg) (p : SpotPixmapData)
    (h : mkSpotPixmap n pxm sz pn br sym = Except.ok p) : p.pmId = n := by
  unfold mkSpotPixmap at h
  rcases hr : resolveSymbol sym with e | c <;> rw [hr] at h <;> dsimp only at h
  · cases h
  · rcases hp : setPath c with e | pth <;> rw [hp] at h <;> dsimp only at h
    · cases h
    · cases h
      rfl

/-- Behaviour of `mkSpot` in identical mode with pixel mode on: the created
spot's glyph cache is exactly the (possibly just lazily created) shared
cache, nothing else of the state changes except possibly the cache and the
id counter, and a pre-existing cache is reused as is. -/
theorem mkSpot_identical_px (s : Scatter) (x y sz : ℚ) (br : Brush) (pn : Pen)
    (dv : Option MetaVal) (sym : SymbolArg) (idx : ℕ) (item : SpotItem)
    (hid : s.opts.identical = true)
    (hok : (mkSpot s x y sz true br pn dv sym idx).val = Except.ok item) :
    (mkSpot s x y sz true br pn dv sym idx).state.spotPixmapCache = some item.pixmap ∧
    (mkSpot s x y sz true br pn dv sym idx).state.opts = s.opts ∧
    (mkSpot s x y sz true br pn dv sym idx).state.spots = s.spots ∧
    (mkSpot s x y sz true br pn dv sym idx).state.pointData = s.pointData ∧
    (mkSpot s x y sz true br pn dv sym idx).state.data = s.data ∧
    (∀ c, s.spotPixmapCache = some c →
      (mkSpot s x y sz true br pn dv sym idx).state = s ∧ item.pixmap = c) := by
  unfold mkSpot spotPixmapOf at hok ⊢
  simp only [hid, not_true_eq_false, if_false, eq_self_iff_true, if_true] at hok ⊢
  rcases hc : s.spotPixmapCache with _ | c <;> simp only [hc] at hok ⊢
  · rcases hm : mkSpotPixmap s.nextId s.opts.pxMode s.opts.size s.opts.pen s.opts.brush
        s.opts.symbol with e | p <;> simp only [hm] at hok ⊢
    · cases hok
    · cases hok
      simp_all
  · cases hok
    simp_all

/-- Behaviour of `mkSpot` when identical mode is off: a fresh private glyph
cache is always built, carrying the next counter value as its identity, and
only the counter advances in the state. -/
theorem mkSpot_not_identical (s : Scatter) (x y sz : ℚ) (pxm : Bool) (br : Brush) (pn : Pen)
    (dv : Option MetaVal) (sym : SymbolArg) (idx : ℕ) (item : SpotItem)
    (hid : s.opts.identical = false)
    (hok : (mkSpot s x y sz pxm br pn dv sym idx).val = Except.ok item) :
    (mkSpot s x y sz pxm br pn dv sym idx).state = { s with nextId := s.nextId + 1 } ∧
      item.pixmap.pmId = s.nextId := by
  unfold mkSpot spotPixmapOf at hok ⊢
  simp only [hid, Bool.false_eq_true, not_false_eq_true, if_true, if_false, ite_self]
    at hok ⊢
  rcases hm : mkSpotPixmap s.nextId pxm sz pn br sym with e | p <;> simp only [hm] at hok ⊢
  · cases hok
  · cases hok
    refine ⟨?_, mkSpotPixmap_id _ _ _ _ _ _ _ hm⟩
    trivial

/-- Induction over the `generateSpots` loop in identical mode with pixel mode
on: options are preserved, a pre-existing shared cache persists untouched,
and every spot appended by the loop holds exactly the final shared cache. -/
theorem genLoop_identical_px :
    ∀ (recs : List PointRec) (s : Scatter) (i : ℕ) (s' : Scatter),
      s.opts.identical = true → s.opts.pxMode = true →
      genLoop s recs i = (none, s') →
      s'.opts = s.opts ∧
      (∀ c, s.spotPixmapCache = some c → s'.spotPixmapCache = some c) ∧
      ∃ news, s'.spots = s.spots ++ news ∧
        ∀ sp ∈ news, s'.spotPixmapCache = some sp.pixmap
  | [], s, i, s', hid, hpx, h => by
    simp only [genLoop, Prod.mk.injEq, true_and] at h
    subst h
    exact ⟨rfl, fun c hc => hc, ⟨[], by simp, by simp⟩⟩
  | r :: rest, s, i, s', hid, hpx, h => by
    simp only [genLoop] at h
    rw [hpx] at h
    split at h
    next hlt =>
      split at h
      next e heq => cases h
      next item heq =>
        obtain ⟨hcache, hopts, hspots, hpd, hdata, hpre⟩ :=
          mkSpot_identical_px s r.x r.y (resolvedSize s.opts r) (resolvedBrush s.opts r)
            (resolvedPen s.opts r) _ (resolvedSymbol s.opts r) s.spots.length item hid heq
        obtain ⟨ih1, ih2, news', ihsp, ihmem⟩ :=
          genLoop_identical_px rest _ (i + 1) s'
            (by simp only [hopts]; exact hid) (by simp only [hopts]; exact hpx) h
        refine ⟨ih1.trans hopts, ?_, ⟨item :: news', ?_, ?_⟩⟩
        · intro c hc
          obtain ⟨-, hpix⟩ := hpre c hc
          exact ih2 c (by rw [hcache, hpix])
        · rw [ihsp, hspots]
          simp
        · intro sp hsp
          rcases List.mem_cons.mp hsp with rfl | hsp2
          · exact ih2 sp.pixmap hcache
          · exact ihmem sp hsp2
    next hlt => cases h

/-- Induction over the `generateSpots` loop when identical mode is off: the
shared cache is untouched and the spots appended by the loop carry freshly
numbered private caches — consecutive identities starting at the entry
counter value. -/
theorem genLoop_not_identical :
    ∀ (recs : List PointRec) (s : Scatter) (i : ℕ) (s' : Scatter),
      s.opts.identical = false →
      genLoop s recs i = (none, s') →
      s'.spotPixmapCache = s.spotPixmapCache ∧
      ∃ news, s'.spots = s.spots ++ news ∧
        news.map (fun sp => sp.pixmap.pmId) = List.range' s.nextId news.length ∧
        s'.nextId = s.nextId + news.length
  | [], s, i, s', hid, h => by
    simp only [genLoop, Prod.mk.injEq, true_and] at h
    subst h
    exact ⟨rfl, ⟨[], by simp, by simp, by simp⟩⟩
  | r :: rest, s, i, s', hid, h => by
    simp only [genLoop] at h
    split at h
    next hlt =>
      split at h
      next e heq => cases h
      next item heq =>
        obtain ⟨hstate, hpmid⟩ :=
          mkSpot_not_identical s r.x r.y (resolvedSize s.opts r) s.opts.pxMode
            (resolvedBrush s.opts r) (resolvedPen s.opts r) _ (resolvedSymbol s.opts r)
            s.spots.length item hid heq
        rw [hstate] at h
        obtain ⟨ih1, news', ihsp, ihids, ihn⟩ :=
          genLoop_not_identical rest _ (i + 1) s' (by exact hid) h
        refine ⟨ih1, ⟨item :: news', ?_, ?_, ?_⟩⟩
        · rw [ihsp]
          simp
        · simp only [List.map_cons, List.length_cons, hpmid]
          rw [List.range'_succ, ihids]
        · simp only [List.length_cons] at *
          omega
    next hlt => cases h

/-- Materialized one-point-per-spot state in identical mode with pixel mode
on (the shared glyph cache has been created with the default size 7). -/
def stC9 : Scatter :=
  (pointsOf (setDataPos (setIdenticalFlag initState true) [(0, 0), (1, 1)])).state

/-- C9 counterexample: after materializing in identical mode, changing the
shared visual option `size` from 7 to 10 leaves the shared glyph cache
untouched (still describing size 7) — it is NOT invalidated when a shared
visual option changes. -/
theorem c9_counterexample :
    (setSizeScalar stC9 10).spotPixmapCache = stC9.spotPixmapCache ∧
      (stC9.spotPixmapCache.map (fun p => p.size)) = some 7 ∧
      (setSizeScalar stC9 10).opts.size = 10 :=
  ⟨by decide, by decide, by decide⟩

/-- C9 (amended): when identical mode is active with pixel mode on, all marker
instances materialized by a successful `generateSpots` pass share one glyph
cache — the collection's single cache, created lazily on first use and
reused as-is when it already exists; when identical mode is off, each
materialized point receives its own glyph cache with a distinct identity.
However, the lazily created shared cache is NEVER invalidated by the
shared-option mutators (`setPen`, `setBrush`, `setSize`, `setSymbol`,
`setPointData`, `setPxMode`, `setIdentical`): it persists unchanged across
every such call. -/
theorem c9_amended (s : Scatter) :
    ((s.opts.identical = true → s.opts.pxMode = true →
        (generateSpots s).val = Except.ok () →
        ((∀ sp1 ∈ (generateSpots s).state.spots.drop s.spots.length,
            ∀ sp2 ∈ (generateSpots s).state.spots.drop s.spots.length,
              sp1.pixmap = sp2.pixmap ∧
                (generateSpots s).state.spotPixmapCache = some sp1.pixmap) ∧
          (∀ c, s.spotPixmapCache = some c →
            (generateSpots s).state.spotPixmapCache = some c))) ∧
      (s.opts.identical = false → (generateSpots s).val = Except.ok () →
        ((((generateSpots s).state.spots.drop s.spots.length).map
            (fun sp => sp.pixmap.pmId)).Nodup ∧
          (generateSpots s).state.spotPixmapCache = s.spotPixmapCache))) ∧
    (∀ m : Mutator, ((applyMutator m s).2).spotPixmapCache = s.spotPixmapCache) := by
  refine ⟨⟨?_, ?_⟩, fun m => (applyMutator_frame m s).2.2⟩
  · intro hid hpx hok
    unfold generateSpots at hok ⊢
    rcases hd : s.data with _ | d <;> simp only [hd] at hok ⊢
    · cases hok
    · rcases hg : genLoop s d 0 with ⟨e, s2⟩
      rw [hg] at hok
      rcases e with _ | err <;> dsimp only at hok ⊢
      · obtain ⟨hopts, hpers, news, hsp, hmem⟩ := genLoop_identical_px d s 0 s2 hid hpx hg
        have hdrop : (s2.spots.drop s.spots.length) = news := by
          rw [hsp]
          exact List.drop_left _ _
        rw [hdrop]
        refine ⟨fun sp1 h1 sp2 h2 => ?_, fun c hc => hpers c hc⟩
        have e1 := hmem sp1 h1
        have e2 := hmem sp2 h2
        refine ⟨?_, e1⟩
        rw [e1] at e2
        exact Option.some.inj e2
      · cases hok
  · intro hid hok
    unfold generateSpots at hok ⊢
    rcases hd : s.data with _ | d <;> simp only [hd] at hok ⊢
    · cases hok
    · rcases hg : genLoop s d 0 with ⟨e, s2⟩
      rw [hg] at hok
      rcases e with _ | err <;> dsimp only at hok ⊢
      · obtain ⟨hcache, news, hsp, hids, hn⟩ := genLoop_not_identical d s 0 s2 hid hg
        have hdrop : (s2.spots.drop s.spots.length) = news := by
          rw [hsp]
          exact List.drop_left _ _
        rw [hdrop]
        refine ⟨?_, hcache⟩
        rw [hids]
        exact List.nodup_range' _ _
      · cases hok

/-- Two points in identical mode with pixel mode on, not yet materialized. -/
def sW9 : Scatter := setDataPos (setIdenticalFlag initState true) [(0, 0), (1, 1)]

/-- Two points with identical mode off, not yet materialized. -/
def sW9u : Scatter := setDataPos initState [(0, 0), (1, 1)]

/-- C9 witness: on `sW9` the two materialized spots share the single cache
(which equals the collection's cache field), on `sW9u` the two spots carry
caches with distinct identities, and a `setSize` call leaves the cache
field untouched. -/
theorem c9_amended_witness :
    (generateSpots sW9).state.spotPixmapCache =
        some (((generateSpots sW9).state.spots.drop sW9.spots.length).getD 0 default).pixmap ∧
      (((generateSpots sW9).state.spots.drop sW9.spots.length).getD 0 default).pixmap =
        (((generateSpots sW9).state.spots.drop sW9.spots.length).getD 1 default).pixmap ∧
      ((((generateSpots sW9u).state.spots.drop sW9u.spots.length).map
          (fun sp => sp.pixmap.pmId)).Nodup) ∧
      (applyMutator (Mutator.sizeScalar 10) sW9).2.spotPixmapCache = sW9.spotPixmapCache := by
  have h := (c9_amended sW9).1.1 (by decide) (by decide) (by decide)
  have hu := (c9_amended sW9u).1.2 (by decide) (by decide)
  refine ⟨?_, ?_, hu.1, (c9_amended sW9).2 (Mutator.sizeScalar 10)⟩
  · exact (h.1 (((generateSpots sW9).state.spots.drop sW9.spots.length).getD 0 default)
      (by decide) (((generateSpots sW9).state.spots.drop sW9.spots.length).getD 0 default)
      (by decide)).2
  · exact (h.1 (((generateSpots sW9).state.spots.drop sW9.spots.length).getD 0 default)
      (by decide) (((generateSpots sW9).state.spots.drop sW9.spots.length).getD 1 default)
      (by decide)).1

end ScatterSim
